import Mathlib

/-!
Verification of the go-signalads client library: a shallow embedding of its
error model (errors.go), transport response handling (client.go) and the
message-sending service layer (messages.go), with theorems settling the
specified properties of the error classifier, the predicate helpers and the
local validation rules.

Modelling conventions:
- Go `error` values are `Option GoError` (`none` is the nil error); the
  concrete error kinds that arise in this library are the typed `*APIError`,
  plain `fmt.Errorf` strings, and `fmt.Errorf("...: %w", err)` wrapping
  errors, captured by the three constructors of `GoError`.
- Go `int` is `Int`; the open `map[string]interface{}` fields (`Details`,
  `Params`, `Data`), which no operation of the library ever inspects, are
  carried as association lists of strings so that record equality is
  decidable.
- Calls into the Go standard library JSON decoder (`json.Unmarshal`) are
  external to the repository and are passed in as function parameters
  (`dec` for unmarshalling into `APIError`, `decV` for unmarshalling into
  the caller-supplied result container).
-/

namespace SignalAds

/-- Embeds the Go struct `APIError` (errors.go): fields Code, Message,
StatusCode, ErrorMsg, Details, with Go zero values as defaults. -/
structure APIError where
  code : String := ""
  message : String := ""
  statusCode : Int := 0
  errorMsg : String := ""
  details : List (String × String) := []
deriving Repr, DecidableEq, Inhabited

/-- Embeds the method `func (e *APIError) Error() string` (errors.go):
four rendering branches tried in order. -/
def APIError.render (e : APIError) : String :=
  if e.message ≠ "" then e.message
  else if e.errorMsg ≠ "" then e.errorMsg
  else if e.code ≠ "" then
    "API error [" ++ e.code ++ "]: status " ++ toString e.statusCode
  else
    "API error: status " ++ toString e.statusCode

/-- Error code constant from errors.go. -/
def ErrCodeInvalidCredentials : String := "INVALID_CREDENTIALS"

/-- Error code constant from errors.go. -/
def ErrCodeInsufficientBalance : String := "INSUFFICIENT_BALANCE"

/-- Error code constant from errors.go. -/
def ErrCodeRateLimitExceeded : String := "RATE_LIMIT_EXCEEDED"

/-- Error code constant from errors.go. -/
def ErrCodeNotFound : String := "NOT_FOUND"

/-- Error code constant from errors.go. -/
def ErrCodeForbidden : String := "FORBIDDEN"

/-- Error code constant from errors.go. -/
def ErrCodeBadRequest : String := "BAD_REQUEST"

/-- Error code constant from errors.go. -/
def ErrCodeInternalServerError : String := "INTERNAL_SERVER_ERROR"

/-- Error code constant from errors.go. -/
def ErrCodeServiceUnavailable : String := "SERVICE_UNAVAILABLE"

/-- The non-nil Go error values that arise in this library: a typed
`*APIError`, a plain `fmt.Errorf` string, or a wrapping error made by
`fmt.Errorf` with the `%w` verb (whose text is the format text followed by
the rendering of the wrapped error, and whose `Unwrap` returns the wrapped
error). -/
inductive GoError where
  | apiErr (e : APIError)
  | generic (s : String)
  | wrapf (pre : String) (inner : GoError)
deriving Repr, DecidableEq

/-- The `Error()` text of a Go error value of any of the three kinds. -/
def GoError.render : GoError → String
  | .apiErr e => e.render
  | .generic s => s
  | .wrapf pre inner => pre ++ inner.render

/-- Embeds `errors.Unwrap`: only a `%w` wrapping error unwraps. -/
def GoError.unwrapErr : GoError → Option GoError
  | .wrapf _ inner => some inner
  | _ => none

/-- The Go type assertion `err.(*APIError)` on an `error` value: succeeds
exactly on a non-nil value whose dynamic type is `*APIError`. A wrapping
error never satisfies it, whatever it wraps. -/
def asAPIError : Option GoError → Option APIError
  | some (.apiErr e) => some e
  | _ => none

/-- Embeds `func IsAPIError(err error) bool` (errors.go). -/
def IsAPIError (err : Option GoError) : Bool :=
  (asAPIError err).isSome

/-- Embeds `func GetStatusCode(err error) int` (errors.go). -/
def GetStatusCode (err : Option GoError) : Int :=
  match asAPIError err with
  | some apiErr => apiErr.statusCode
  | none => 0

/-- Embeds `func GetErrorCode(err error) string` (errors.go). -/
def GetErrorCode (err : Option GoError) : String :=
  match asAPIError err with
  | some apiErr => apiErr.code
  | none => ""

/-- Embeds `func IsErrorCode(err error, code string) bool` (errors.go). -/
def IsErrorCode (err : Option GoError) (code : String) : Bool :=
  match asAPIError err with
  | some apiErr => apiErr.code == code
  | none => false

/-- Embeds `func NewAPIError(code, message string, statusCode int)`
(errors.go). -/
def NewAPIError (code message : String) (statusCode : Int) : APIError :=
  { code := code, message := message, statusCode := statusCode }

/-- Embeds `func WrapError(err error, statusCode int) *APIError`
(errors.go): nil passes through, a typed error is returned unchanged, any
other error is wrapped into a new typed error carrying its text. -/
def WrapError (err : Option GoError) (statusCode : Int) : Option APIError :=
  match err with
  | none => none
  | some (.apiErr apiErr) => some apiErr
  | some e => some { message := e.render, statusCode := statusCode }

/-- Embeds `func IsNotFound(err error) bool` (errors.go);
`http.StatusNotFound` is 404. -/
def IsNotFound (err : Option GoError) : Bool :=
  match asAPIError err with
  | some apiErr => apiErr.statusCode == 404 || apiErr.code == ErrCodeNotFound
  | none => false

/-- Embeds `func IsUnauthorized(err error) bool` (errors.go);
`http.StatusUnauthorized` is 401. -/
def IsUnauthorized (err : Option GoError) : Bool :=
  match asAPIError err with
  | some apiErr => apiErr.statusCode == 401 || apiErr.code == ErrCodeInvalidCredentials
  | none => false

/-- Embeds `func IsRateLimited(err error) bool` (errors.go);
`http.StatusTooManyRequests` is 429. -/
def IsRateLimited (err : Option GoError) : Bool :=
  match asAPIError err with
  | some apiErr => apiErr.statusCode == 429 || apiErr.code == ErrCodeRateLimitExceeded
  | none => false

/-- Embeds `func IsInsufficientBalance(err error) bool` (errors.go); the
source checks the code first, then `http.StatusPaymentRequired` (402). -/
def IsInsufficientBalance (err : Option GoError) : Bool :=
  match asAPIError err with
  | some apiErr => apiErr.code == ErrCodeInsufficientBalance || apiErr.statusCode == 402
  | none => false

/-- Embeds `func IsBadRequest(err error) bool` (errors.go);
`http.StatusBadRequest` is 400. -/
def IsBadRequest (err : Option GoError) : Bool :=
  match asAPIError err with
  | some apiErr => apiErr.statusCode == 400 || apiErr.code == ErrCodeBadRequest
  | none => false

/-- Embeds `func getErrorCodeFromStatusCode(statusCode int) string`
(client.go), with the `net/http` status constants replaced by their
numeric values. -/
def getErrorCodeFromStatusCode (statusCode : Int) : String :=
  if statusCode = 400 then ErrCodeBadRequest
  else if statusCode = 401 then ErrCodeInvalidCredentials
  else if statusCode = 403 then ErrCodeForbidden
  else if statusCode = 404 then ErrCodeNotFound
  else if statusCode = 402 then ErrCodeInsufficientBalance
  else if statusCode = 429 then ErrCodeRateLimitExceeded
  else if statusCode = 500 then ErrCodeInternalServerError
  else if statusCode = 503 then ErrCodeServiceUnavailable
  else ""

/-- An HTTP response as seen by `parseResponse` after the body has been
read in full: status code and raw body text. -/
structure HTTPResponse where
  statusCode : Int
  body : String
deriving Repr, DecidableEq

/-- Outcome of `parseResponse` and of the verb operations: the returned Go
error (`none` is nil) together with the final state of the caller-supplied
result container (`none` when no container was supplied, `some v` the
contents of the supplied container). -/
structure ParseResult (V : Type) where
  err : Option GoError
  container : Option V
deriving Repr, DecidableEq

/-- Embeds the non-2xx branch of `parseResponse` (client.go lines 95-110):
try to unmarshal the body as an `APIError`; on success backfill a zero
StatusCode from the response, and keep the value if any of Message, Code,
ErrorMsg is non-empty; otherwise synthesize a typed error from the status
code lookup table and a generic message embedding status and body. `dec`
stands for the external `json.Unmarshal` into `APIError`. -/
def classifyError (dec : String → Option APIError) (statusCode : Int)
    (body : String) : APIError :=
  match dec body with
  | some apiErr0 =>
    let apiErr :=
      if apiErr0.statusCode = 0 then { apiErr0 with statusCode := statusCode }
      else apiErr0
    if apiErr.message ≠ "" ∨ apiErr.code ≠ "" ∨ apiErr.errorMsg ≠ "" then
      apiErr
    else
      NewAPIError (getErrorCodeFromStatusCode statusCode)
        ("API error: status " ++ toString statusCode ++ ", body: " ++ body)
        statusCode
  | none =>
    NewAPIError (getErrorCodeFromStatusCode statusCode)
      ("API error: status " ++ toString statusCode ++ ", body: " ++ body)
      statusCode

/-- Embeds `func (c *Client) parseResponse(resp, v) error` (client.go):
on a status outside [200,300) return the classifier error and leave the
container as it was; on a 2xx status with a supplied container decode the
body into it (`decV` stands for the external `json.Unmarshal` into the
container type, returning the decode error text on failure, which the
source wraps as "failed to unmarshal response: %w"); on a 2xx status with
no container succeed without decoding. -/
def parseResponse {V : Type} (dec : String → Option APIError)
    (decV : String → Except String V) (resp : HTTPResponse)
    (v : Option V) : ParseResult V :=
  if resp.statusCode < 200 ∨ 300 ≤ resp.statusCode then
    { err := some (.apiErr (classifyError dec resp.statusCode resp.body)),
      container := v }
  else
    match v with
    | some v0 =>
      match decV resp.body with
      | .ok val => { err := none, container := some val }
      | .error t =>
        { err := some (.wrapf "failed to unmarshal response: " (.generic t)),
          container := some v0 }
    | none => { err := none, container := none }

/-- Embeds `func (c *Client) Get(...)` (client.go): run the request, pass a
transport failure through, otherwise parse the response. `doRes` stands
for the outcome of the external `doRequest` call. -/
def Get {V : Type} (dec : String → Option APIError)
    (decV : String → Except String V) (doRes : Except GoError HTTPResponse)
    (result : Option V) : ParseResult V :=
  match doRes with
  | .error e => { err := some e, container := result }
  | .ok resp => parseResponse dec decV resp result

/-- Embeds `func (c *Client) Post(...)` (client.go), same response path as
`Get`. -/
def Post {V : Type} (dec : String → Option APIError)
    (decV : String → Except String V) (doRes : Except GoError HTTPResponse)
    (result : Option V) : ParseResult V :=
  match doRes with
  | .error e => { err := some e, container := result }
  | .ok resp => parseResponse dec decV resp result

/-- Embeds `func (c *Client) Put(...)` (client.go), same response path as
`Get`. -/
def Put {V : Type} (dec : String → Option APIError)
    (decV : String → Except String V) (doRes : Except GoError HTTPResponse)
    (result : Option V) : ParseResult V :=
  match doRes with
  | .error e => { err := some e, container := result }
  | .ok resp => parseResponse dec decV resp result

/-- Embeds `func (c *Client) Delete(...)` (client.go), same response path
as `Get`. -/
def Delete {V : Type} (dec : String → Option APIError)
    (decV : String → Except String V) (doRes : Except GoError HTTPResponse)
    (result : Option V) : ParseResult V :=
  match doRes with
  | .error e => { err := some e, container := result }
  | .ok resp => parseResponse dec decV resp result

/-- Embeds the struct `SendMessageRequest` (types.go); the field `From` is
kept with the Go capitalization, and the open `Params` map is an
association list as explained at the top of the file. Defaults are the Go
zero values. -/
structure SendMessageRequest where
  To : String := ""
  Message : String := ""
  DocumentLink : String := ""
  DocumentCaption : String := ""
  From : String := ""
  Params : List (String × String) := []
deriving Repr, DecidableEq, Inhabited

/-- Embeds the struct `SendMessageResponse` (types.go); the float64 `Cost`
field is carried as its JSON text since no code of the library inspects
it. -/
structure SendMessageResponse where
  ID : String := ""
  Status : String := ""
  Message : String := ""
  To : String := ""
  Cost : String := ""
  SentAt : String := ""
  Data : List (String × String) := []
deriving Repr, DecidableEq, Inhabited

/-- Embeds the struct `BulkMessageItem` (types.go). -/
structure BulkMessageItem where
  To : String := ""
  Message : String := ""
  Params : List (String × String) := []
deriving Repr, DecidableEq, Inhabited

/-- Embeds the struct `SendBulkMessageRequest` (types.go). -/
structure SendBulkMessageRequest where
  Messages : List BulkMessageItem := []
  From : String := ""
  Params : List (String × String) := []
deriving Repr, DecidableEq, Inhabited

/-- Embeds the struct `SendBulkMessageResponse` (types.go). -/
structure SendBulkMessageResponse where
  Total : Int := 0
  Success : Int := 0
  Failed : Int := 0
  MessageIDs : List String := []
  Status : String := ""
  Data : List (String × String) := []
deriving Repr, DecidableEq, Inhabited

/-- Embeds `func (s *MessagesService) SendSingleMessage` (messages.go):
validate the request locally (nil request, empty To, empty Message yield
local errors), then call `Post` on /send-message/single with a fresh
response container and wrap a pipeline error as
"failed to send message: %w". `postRes` stands for the outcome of the
`s.client.Post` call on the validated request, which is reached only
after validation passes. -/
def SendSingleMessage
    (postRes : SendMessageRequest → ParseResult SendMessageResponse)
    (req : Option SendMessageRequest) :
    Except GoError SendMessageResponse :=
  match req with
  | none => .error (.generic "request cannot be nil")
  | some r =>
    if r.To = "" then .error (.generic "recipient phone number is required")
    else if r.Message = "" then .error (.generic "message text is required")
    else
      let res := postRes r
      match res.err with
      | some e => .error (.wrapf "failed to send message: " e)
      | none => .ok (res.container.getD default)

/-- Embeds `func (s *MessagesService) SendBulkMessages` (messages.go):
validate locally (nil request, empty message list), then call `Post` on
/send-message/bulk and wrap a pipeline error as
"failed to send bulk messages: %w". `postRes` as in
`SendSingleMessage`. -/
def SendBulkMessages
    (postRes : SendBulkMessageRequest → ParseResult SendBulkMessageResponse)
    (req : Option SendBulkMessageRequest) :
    Except GoError SendBulkMessageResponse :=
  match req with
  | none => .error (.generic "request cannot be nil")
  | some r =>
    if r.Messages.length = 0 then
      .error (.generic "at least one message is required")
    else
      let res := postRes r
      match res.err with
      | some e => .error (.wrapf "failed to send bulk messages: " e)
      | none => .ok (res.container.getD default)

/-- The raw body of the HTTP 400 response used in the end-to-end error
scenario of the specification. -/
def body400 : String :=
  "\x7b\"message\":\"Invalid phone number\",\"status_code\":400\x7d"

/-- The typed value that the Go standard library JSON decoder produces
from `body400`. -/
def invalidPhone : APIError :=
  { message := "Invalid phone number", statusCode := 400 }

/-- Models the external `json.Unmarshal` into `APIError` on the concrete
body of the end-to-end scenario: it yields `invalidPhone` on `body400`
and fails on anything else. -/
def decode400 (s : String) : Option APIError :=
  if s = body400 then some invalidPhone else none

/-- The `s.client.Post` outcome for a transport that answers every request
with HTTP 400 and body `body400`, with a fresh zero-valued response
container supplied, as in `SendSingleMessage`. The success-path decoder is
never reached on a 400 response. -/
def post400 (_ : SendMessageRequest) : ParseResult SendMessageResponse :=
  Post decode400 (fun _ => .error "unreached on a 400 response")
    (.ok { statusCode := 400, body := body400 }) (some default)

/-- The value `SendSingleMessage` returns to the caller in the end-to-end
HTTP 400 scenario, for the request with To "+1234567890" and
Message "hi". -/
def sendOutcome400 : Except GoError SendMessageResponse :=
  SendSingleMessage post400 (some { To := "+1234567890", Message := "hi" })

/-- The error value inside `sendOutcome400`: the typed error wrapped by
the convenience method. -/
def wrapped400 : GoError :=
  .wrapf "failed to send message: " (.apiErr invalidPhone)

/-- A string different from the empty string has positive length. -/
theorem length_pos_of_ne_empty (s : String) (h : s ≠ "") : 0 < s.length := by
  cases s with
  | mk data =>
    cases data with
    | nil => exact absurd rfl h
    | cons a l =>
      show 0 < (a :: l).length
      simp

/-- Appending to a string of positive length keeps the length positive. -/
theorem length_pos_append (s t : String) (h : 0 < s.length) :
    0 < (s ++ t).length := by
  rw [String.length_append]
  omega

/-- Parsing an error body that yields a value with at least one of the three
text fields non-empty makes the classifier keep that value, backfilling a
zero status code. -/
theorem classifyError_parsed (dec : String → Option APIError) (sc : Int)
    (body : String) (e : APIError) (he : dec body = some e)
    (hne : e.message ≠ "" ∨ e.code ≠ "" ∨ e.errorMsg ≠ "") :
    classifyError dec sc body =
      if e.statusCode = 0 then { e with statusCode := sc } else e := by
  unfold classifyError
  rw [he]
  by_cases h0 : e.statusCode = 0 <;>
    simp [h0] <;>
    (intro hm hc hem
     rcases hne with h | h | h
     · exact absurd hm h
     · exact absurd hc h
     · exact absurd hem h)

/-- When the error body does not parse, or parses with all three text
fields empty, the classifier synthesizes the fallback typed error. -/
theorem classifyError_fallback (dec : String → Option APIError) (sc : Int)
    (body : String)
    (h : dec body = none ∨
      ∃ e, dec body = some e ∧ e.message = "" ∧ e.code = "" ∧ e.errorMsg = "") :
    classifyError dec sc body =
      NewAPIError (getErrorCodeFromStatusCode sc)
        ("API error: status " ++ toString sc ++ ", body: " ++ body) sc := by
  unfold classifyError
  rcases h with h | ⟨e, he, hm, hc, hem⟩
  · rw [h]
  · rw [he]
    by_cases h0 : e.statusCode = 0 <;> simp [h0, hm, hc, hem]

/-- Claim C1: for every HTTP response with status outside [200,300), the
error classifier first attempts to parse the raw body as the typed API
Error shape; if parsing succeeds and at least one of message, code,
error_message is non-empty it returns that parsed value, backfilling a
zero status_code field with the observed HTTP status code; otherwise it
returns a synthesized typed error whose code comes from the fixed lookup
table, whose message is a generic string embedding the status code and the
raw body text, and whose status_code is the observed HTTP status code. -/
theorem classifier_spec {V : Type} (dec : String → Option APIError)
    (decV : String → Except String V) (resp : HTTPResponse) (v : Option V)
    (hs : resp.statusCode < 200 ∨ 300 ≤ resp.statusCode) :
    (∀ e, dec resp.body = some e →
      e.message ≠ "" ∨ e.code ≠ "" ∨ e.errorMsg ≠ "" →
      (parseResponse dec decV resp v).err = some (.apiErr
        (if e.statusCode = 0 then { e with statusCode := resp.statusCode }
         else e)))
    ∧ ((dec resp.body = none ∨
        ∃ e, dec resp.body = some e ∧ e.message = "" ∧ e.code = "" ∧
          e.errorMsg = "") →
      (parseResponse dec decV resp v).err = some (.apiErr
        (NewAPIError (getErrorCodeFromStatusCode resp.statusCode)
          ("API error: status " ++ toString resp.statusCode ++ ", body: " ++
            resp.body)
          resp.statusCode))) := by
  have hmain : (parseResponse dec decV resp v).err =
      some (.apiErr (classifyError dec resp.statusCode resp.body)) := by
    unfold parseResponse
    rw [if_pos hs]
  constructor
  · intro e he hne
    rw [hmain, classifyError_parsed dec resp.statusCode resp.body e he hne]
  · intro h
    rw [hmain, classifyError_fallback dec resp.statusCode resp.body h]

/-- Concrete instance of classifier_spec: a 400 response whose body parses
to a typed error with a non-empty message is returned as that typed
error. -/
theorem classifier_spec_witness :
    (parseResponse decode400 (fun _ => Except.error "x")
      { statusCode := 400, body := body400 } (none : Option Unit)).err =
      some (.apiErr invalidPhone) := by
  have h := (classifier_spec decode400 (fun _ => Except.error "x")
    { statusCode := 400, body := body400 } (none : Option Unit)
    (Or.inr (by decide))).1 invalidPhone (by decide) (Or.inl (by decide))
  exact h.trans (by decide)

/-- Claim C2, counterexample: in the end-to-end HTTP 400 scenario, the
error the caller of SendSingleMessage receives is the wrapping error
produced by the "failed to send message" context, and it does not satisfy
the classifier predicates as the claim states: IsAPIError is not true on
it together with status 400 and the rendered text "Invalid phone number",
because the Go type assertion inside the predicates does not look through
a wrapping error. -/
theorem send_wrap_counterexample :
    sendOutcome400 = .error wrapped400
    ∧ ¬(IsAPIError (some wrapped400) = true
        ∧ GetStatusCode (some wrapped400) = 400
        ∧ GoError.render wrapped400 = "Invalid phone number") := by
  constructor
  · rfl
  · decide

/-- Claim C2, amended: in the end-to-end HTTP 400 scenario the caller
receives the wrapping error, on which IsAPIError is false, GetStatusCode
is 0, and the rendered message is
"failed to send message: Invalid phone number"; the underlying typed
error is preserved and recoverable by unwrapping, and on it IsAPIError is
true, GetStatusCode is 400, and the rendered message is
"Invalid phone number". -/
theorem send_wrap_amended :
    sendOutcome400 = .error wrapped400
    ∧ IsAPIError (some wrapped400) = false
    ∧ GetStatusCode (some wrapped400) = 0
    ∧ GoError.render wrapped400 =
        "failed to send message: Invalid phone number"
    ∧ GoError.unwrapErr wrapped400 = some (.apiErr invalidPhone)
    ∧ IsAPIError (some (GoError.apiErr invalidPhone)) = true
    ∧ GetStatusCode (some (GoError.apiErr invalidPhone)) = 400
    ∧ GoError.render (.apiErr invalidPhone) = "Invalid phone number" := by
  refine ⟨rfl, ?_⟩
  decide

/-- Claim C3: the textual rendering of a typed API Error chooses exactly
one of four branches in priority order: message if non-empty, else
error_message if non-empty, else "API error [code]: status n" if the code
is non-empty, else "API error: status n". -/
theorem apiError_render_priority (e : APIError) :
    (e.message ≠ "" → e.render = e.message)
    ∧ (e.message = "" → e.errorMsg ≠ "" → e.render = e.errorMsg)
    ∧ (e.message = "" → e.errorMsg = "" → e.code ≠ "" →
      e.render = "API error [" ++ e.code ++ "]: status " ++
        toString e.statusCode)
    ∧ (e.message = "" → e.errorMsg = "" → e.code = "" →
      e.render = "API error: status " ++ toString e.statusCode) := by
  refine ⟨fun h1 => ?_, fun h1 h2 => ?_, fun h1 h2 h3 => ?_,
    fun h1 h2 h3 => ?_⟩
  · simp [APIError.render, h1]
  · simp [APIError.render, h1, h2]
  · simp [APIError.render, h1, h2, h3]
  · simp [APIError.render, h1, h2, h3]

/-- Concrete instances of apiError_render_priority: the two literal
examples of the claim. -/
theorem apiError_render_priority_witness :
    APIError.render { code := "INVALID_PHONE", statusCode := 400 } =
      "API error [INVALID_PHONE]: status 400"
    ∧ APIError.render { statusCode := 404 } = "API error: status 404" := by
  constructor
  · rw [(apiError_render_priority _).2.2.1 (by decide) (by decide) (by decide)]
    decide
  · rw [(apiError_render_priority _).2.2.2 (by decide) (by decide) (by decide)]
    decide

/-- Claim C4: each category predicate is true on a typed API Error exactly
when the status code matches its expected HTTP status or the error code
matches its fixed code string, either alone sufficing, and every category
predicate is false on any value that is not of the typed API Error
kind. -/
theorem predicate_helpers_spec (err : Option GoError) :
    (∀ e, asAPIError err = some e →
      ((IsNotFound err = true ↔ e.statusCode = 404 ∨ e.code = "NOT_FOUND")
       ∧ (IsUnauthorized err = true ↔
          e.statusCode = 401 ∨ e.code = "INVALID_CREDENTIALS")
       ∧ (IsRateLimited err = true ↔
          e.statusCode = 429 ∨ e.code = "RATE_LIMIT_EXCEEDED")
       ∧ (IsInsufficientBalance err = true ↔
          e.statusCode = 402 ∨ e.code = "INSUFFICIENT_BALANCE")
       ∧ (IsBadRequest err = true ↔
          e.statusCode = 400 ∨ e.code = "BAD_REQUEST")))
    ∧ (asAPIError err = none →
      IsNotFound err = false ∧ IsUnauthorized err = false
      ∧ IsRateLimited err = false ∧ IsInsufficientBalance err = false
      ∧ IsBadRequest err = false) := by
  constructor
  · intro e he
    refine ⟨?_, ?_, ?_, ?_, ?_⟩ <;>
      simp [IsNotFound, IsUnauthorized, IsRateLimited, IsInsufficientBalance,
        IsBadRequest, he, ErrCodeNotFound, ErrCodeInvalidCredentials,
        ErrCodeRateLimitExceeded, ErrCodeInsufficientBalance,
        ErrCodeBadRequest]
    exact Or.comm
  · intro he
    refine ⟨?_, ?_, ?_, ?_, ?_⟩ <;>
      simp [IsNotFound, IsUnauthorized, IsRateLimited, IsInsufficientBalance,
        IsBadRequest, he]

/-- Concrete instances of predicate_helpers_spec: IsNotFound is true on a
status-only typed error and false on a non-typed error value. -/
theorem predicate_helpers_spec_witness :
    IsNotFound (some (.apiErr { statusCode := 404 })) = true
    ∧ IsNotFound (some (.generic "boom")) = false := by
  constructor
  · exact ((predicate_helpers_spec
      (some (.apiErr { statusCode := 404 }))).1 _ rfl).1.mpr (Or.inl rfl)
  · exact ((predicate_helpers_spec (some (.generic "boom"))).2 rfl).1

/-- Claim C5: for a response with status outside [200,300), each verb
operation returns the error produced by the classifier and leaves the
caller-supplied result container exactly as it was; for a status in
[200,300) with no container supplied, each verb succeeds and no decoding
is attempted (the outcome does not depend on the body decoder, which is
universally quantified). -/
theorem verb_frame_spec {V : Type} (dec : String → Option APIError)
    (decV : String → Except String V) (resp : HTTPResponse) (v : Option V) :
    ((resp.statusCode < 200 ∨ 300 ≤ resp.statusCode) →
      Get dec decV (.ok resp) v =
        { err := some (.apiErr (classifyError dec resp.statusCode resp.body)),
          container := v }
      ∧ Post dec decV (.ok resp) v =
        { err := some (.apiErr (classifyError dec resp.statusCode resp.body)),
          container := v }
      ∧ Put dec decV (.ok resp) v =
        { err := some (.apiErr (classifyError dec resp.statusCode resp.body)),
          container := v }
      ∧ Delete dec decV (.ok resp) v =
        { err := some (.apiErr (classifyError dec resp.statusCode resp.body)),
          container := v })
    ∧ (200 ≤ resp.statusCode → resp.statusCode < 300 →
      Get dec decV (.ok resp) (none : Option V) =
        { err := none, container := none }
      ∧ Post dec decV (.ok resp) (none : Option V) =
        { err := none, container := none }
      ∧ Put dec decV (.ok resp) (none : Option V) =
        { err := none, container := none }
      ∧ Delete dec decV (.ok resp) (none : Option V) =
        { err := none, container := none }) := by
  constructor
  · intro hs
    have h : parseResponse dec decV resp v =
        { err := some (.apiErr (classifyError dec resp.statusCode resp.body)),
          container := v } := by
      unfold parseResponse
      rw [if_pos hs]
    exact ⟨h, h, h, h⟩
  · intro h1 h2
    have hneg : ¬(resp.statusCode < 200 ∨ 300 ≤ resp.statusCode) := by omega
    have h : parseResponse dec decV resp (none : Option V) =
        { err := none, container := none } := by
      unfold parseResponse
      rw [if_neg hneg]
    exact ⟨h, h, h, h⟩

/-- Concrete instances of verb_frame_spec: a 404 response leaves the
container at its prior value and returns the classifier error; a 204
response with no container succeeds. -/
theorem verb_frame_spec_witness :
    Get decode400 (fun _ => Except.error "x") (.ok { statusCode := 404, body := "missing" })
      (some (7 : Int)) =
      { err := some (.apiErr (classifyError decode400 404 "missing")),
        container := some 7 }
    ∧ Get decode400 (fun _ => Except.error "x")
      (.ok { statusCode := 204, body := "" }) (none : Option Int) =
      { err := none, container := none } := by
  constructor
  · exact ((verb_frame_spec decode400 (fun _ => Except.error "x")
      { statusCode := 404, body := "missing" } (some 7)).1
      (Or.inr (by decide))).1
  · exact ((verb_frame_spec decode400 (fun _ => Except.error "x")
      { statusCode := 204, body := "" } (none : Option Int)).2
      (by decide) (by decide)).1

/-- Claim C6: for a response with status in [200,300) and a supplied
result container, the body is decoded into the container, succeeding
exactly when the decoder succeeds and failing with the wrapped decode
error otherwise; the witness instantiates the decoder at the empty body,
where the Go standard library decoder fails. -/
theorem success_decode_spec {V : Type} (dec : String → Option APIError)
    (decV : String → Except String V) (resp : HTTPResponse) (v0 : V)
    (h1 : 200 ≤ resp.statusCode) (h2 : resp.statusCode < 300) :
    (∀ val, decV resp.body = .ok val →
      parseResponse dec decV resp (some v0) =
        { err := none, container := some val })
    ∧ (∀ t, decV resp.body = .error t →
      (parseResponse dec decV resp (some v0)).err =
        some (.wrapf "failed to unmarshal response: " (.generic t))) := by
  have hneg : ¬(resp.statusCode < 200 ∨ 300 ≤ resp.statusCode) := by omega
  constructor
  · intro val hv
    unfold parseResponse
    rw [if_neg hneg]
    simp [hv]
  · intro t ht
    unfold parseResponse
    rw [if_neg hneg]
    simp [ht]

/-- Concrete instance of success_decode_spec: an empty 200 body with a
supplied container yields the decode error, with a decoder that fails on
the empty string the way the Go standard library one does. -/
theorem success_decode_spec_witness :
    (parseResponse decode400
      (fun s => if s = "" then Except.error "unexpected end of JSON input"
        else Except.ok (1 : Int))
      { statusCode := 200, body := "" } (some (0 : Int))).err =
      some (.wrapf "failed to unmarshal response: "
        (.generic "unexpected end of JSON input")) := by
  exact (success_decode_spec decode400
    (fun s => if s = "" then Except.error "unexpected end of JSON input"
      else Except.ok (1 : Int))
    { statusCode := 200, body := "" } (0 : Int) (by decide) (by decide)).2
    "unexpected end of JSON input" rfl

/-- Claim C7: WrapError maps the nil error to nil for every status code,
returns a typed API Error unchanged, and wraps any other non-nil error
into a new typed error whose message is the rendered text of the original
and whose status code is the fallback status code. -/
theorem wrapError_spec (s : Int) :
    WrapError none s = none
    ∧ (∀ e : APIError, WrapError (some (.apiErr e)) s = some e)
    ∧ (∀ g : GoError, asAPIError (some g) = none →
      WrapError (some g) s = some { message := g.render, statusCode := s }) := by
  refine ⟨rfl, fun e => rfl, fun g hg => ?_⟩
  cases g with
  | apiErr e => simp [asAPIError] at hg
  | generic t => rfl
  | wrapf p i => rfl

/-- Concrete instances of wrapError_spec, at the inputs named by the
specification. -/
theorem wrapError_spec_witness :
    WrapError none 500 = none
    ∧ WrapError (some (.apiErr invalidPhone)) 500 = some invalidPhone
    ∧ WrapError (some (.generic "test error")) 500 =
      some { message := "test error", statusCode := 500 } := by
  refine ⟨(wrapError_spec 500).1, (wrapError_spec 500).2.1 invalidPhone, ?_⟩
  exact (wrapError_spec 500).2.2 (.generic "test error") rfl

/-- Claim C8: the error-code-from-status lookup maps each of the eight
listed status codes to its code string and every other integer status
code to the empty string. -/
theorem errorCode_lookup_spec :
    getErrorCodeFromStatusCode 400 = "BAD_REQUEST"
    ∧ getErrorCodeFromStatusCode 401 = "INVALID_CREDENTIALS"
    ∧ getErrorCodeFromStatusCode 403 = "FORBIDDEN"
    ∧ getErrorCodeFromStatusCode 404 = "NOT_FOUND"
    ∧ getErrorCodeFromStatusCode 402 = "INSUFFICIENT_BALANCE"
    ∧ getErrorCodeFromStatusCode 429 = "RATE_LIMIT_EXCEEDED"
    ∧ getErrorCodeFromStatusCode 500 = "INTERNAL_SERVER_ERROR"
    ∧ getErrorCodeFromStatusCode 503 = "SERVICE_UNAVAILABLE"
    ∧ (∀ s : Int, s ≠ 400 → s ≠ 401 → s ≠ 403 → s ≠ 404 → s ≠ 402 →
        s ≠ 429 → s ≠ 500 → s ≠ 503 → getErrorCodeFromStatusCode s = "") := by
  refine ⟨by decide, by decide, by decide, by decide, by decide, by decide,
    by decide, by decide, ?_⟩
  intro s h1 h2 h3 h4 h5 h6 h7 h8
  simp [getErrorCodeFromStatusCode, h1, h2, h3, h4, h5, h6, h7, h8]

/-- Concrete instance of errorCode_lookup_spec: status 418 is outside the
table and maps to the empty string. -/
theorem errorCode_lookup_spec_witness :
    getErrorCodeFromStatusCode 418 = "" :=
  errorCode_lookup_spec.2.2.2.2.2.2.2.2 418 (by decide) (by decide) (by decide)
    (by decide) (by decide) (by decide) (by decide) (by decide)

/-- Claim C9: the single-message send with an empty recipient and the bulk
send with an empty message list each return the local validation error;
the transport outcome is universally quantified and absent from the
conclusion, so no HTTP request influences (or is needed for) the
result. -/
theorem local_validation_spec
    (post1 : SendMessageRequest → ParseResult SendMessageResponse)
    (post2 : SendBulkMessageRequest → ParseResult SendBulkMessageResponse)
    (r : SendMessageRequest) (br : SendBulkMessageRequest) :
    (r.To = "" → SendSingleMessage post1 (some r) =
      .error (.generic "recipient phone number is required"))
    ∧ (br.Messages = [] → SendBulkMessages post2 (some br) =
      .error (.generic "at least one message is required")) := by
  constructor
  · intro h
    simp [SendSingleMessage, h]
  · intro h
    simp [SendBulkMessages, h]

/-- Concrete instances of local_validation_spec at empty-recipient and
empty-list requests. -/
theorem local_validation_spec_witness :
    SendSingleMessage (fun _ => { err := none, container := none })
      (some { Message := "hi" }) =
      .error (.generic "recipient phone number is required")
    ∧ SendBulkMessages (fun _ => { err := none, container := none })
      (some {}) =
      .error (.generic "at least one message is required") :=
  ⟨(local_validation_spec (fun _ => { err := none, container := none })
      (fun _ => { err := none, container := none })
      { Message := "hi" } {}).1 rfl,
   (local_validation_spec (fun _ => { err := none, container := none })
      (fun _ => { err := none, container := none })
      { Message := "hi" } {}).2 rfl⟩

/-- Claim C10: the rendering of every typed API Error value, the zero
value included, is a non-empty string, and when all three text fields are
empty the final fallback branch produces "API error: status n". -/
theorem apiError_render_nonempty (e : APIError) :
    0 < (APIError.render e).length
    ∧ (e.message = "" → e.errorMsg = "" → e.code = "" →
      APIError.render e = "API error: status " ++ toString e.statusCode) := by
  constructor
  · unfold APIError.render
    by_cases h1 : e.message = ""
    · by_cases h2 : e.errorMsg = ""
      · by_cases h3 : e.code = ""
        · simp [h1, h2, h3]
          exact Or.inl (by decide)
        · simp [h1, h2, h3]
          exact Or.inl (Or.inl (Or.inl (by decide)))
      · simp [h1, h2]
        exact length_pos_of_ne_empty _ h2
    · simp [h1]
      exact length_pos_of_ne_empty _ h1
  · intro h1 h2 h3
    simp [APIError.render, h1, h2, h3]

/-- Concrete instance of apiError_render_nonempty at the zero value. -/
theorem apiError_render_nonempty_witness :
    0 < (APIError.render {}).length
    ∧ APIError.render ({} : APIError) = "API error: status 0" := by
  constructor
  · exact (apiError_render_nonempty {}).1
  · rw [(apiError_render_nonempty {}).2 rfl rfl rfl]
    decide

end SignalAds
